import Mathlib

/-!
Verification model of the Plugwise thermostat client (`climate.py`).

The file embeds the client's pure core: the ampersand sanitizer, the
ElementTree-style path lookups over the domain snapshot, the measurement
getters, the request/connect retry loops (network effects are supplied by
an oracle of attempt outcomes), and the throttled snapshot refresh.
-/

/-- Replacement text `&amp;` emitted by the sanitizer, as a character list. -/
def ampList : List Char := ['&', 'a', 'm', 'p', ';']

/-- Character class `[a-zA-Z#]` from the regex `&([^a-zA-Z#])`. -/
def letterOrHash (c : Char) : Bool := c.isAlpha || c == '#'

/-- Model of `re.sub(r"&([^a-zA-Z#])", r"&amp;\1", xmldata)` on character
lists: scan left to right; an `&` followed by a character outside
`[a-zA-Z#]` matches together with that character and is rewritten to
`&amp;` plus the captured character, scanning resuming after the pair;
any other character (including an `&` whose follower is in the class, and
a trailing `&` with no follower) is copied and scanning advances by one. -/
def escapeIllegalList : List Char → List Char
  | [] => []
  | [a] => [a]
  | a :: b :: rest =>
    if a = '&' then
      if letterOrHash b then a :: escapeIllegalList (b :: rest)
      else ampList ++ b :: escapeIllegalList rest
    else a :: escapeIllegalList (b :: rest)

/-- Model of `Plugwise.escape_illegal_xml_characters` (climate.py line 161). -/
def escape_illegal_xml_characters (s : String) : String :=
  String.mk (escapeIllegalList s.data)

/-- Rewrite described by the spec's words for the sanitizer: every `&`
whose immediate follower is not a letter or `#` becomes `&amp;`, every
`&` followed by a letter or `#` stays, and each character after an `&`
is reconsidered on its own (no pair consumption). A trailing `&`, having
no follower, stays. Used to compare the spec's claim with the code. -/
def escapeSpecC3 : List Char → List Char
  | [] => []
  | [a] => [a]
  | a :: b :: rest =>
    if a = '&' then
      if letterOrHash b then a :: escapeSpecC3 (b :: rest)
      else ampList ++ escapeSpecC3 (b :: rest)
    else a :: escapeSpecC3 (b :: rest)

/-- Inputs with no two consecutive ampersands. -/
def noDoubleAmp : List Char → Bool
  | [] => true
  | [_] => true
  | a :: b :: rest => if a = '&' ∧ b = '&' then false else noDoubleAmp (b :: rest)

/-! XML document model: `xml.etree` elements, and the child-axis path
queries built by the getters' string-concatenated locators. -/

/-- An `xml.etree` element: tag, attribute dictionary, text, children. -/
inductive Element where
  | mk : String → List (String × String) → Option String → List Element → Element

/-- Tag of an element. -/
def Element.tag : Element → String
  | .mk t _ _ _ => t

/-- Attribute dictionary of an element (`elem.attrib`). -/
def Element.attrib : Element → List (String × String)
  | .mk _ a _ _ => a

/-- Text of an element (`elem.text`, absent when the element is empty). -/
def Element.text : Element → Option String
  | .mk _ _ t _ => t

/-- Children of an element. -/
def Element.children : Element → List Element
  | .mk _ _ _ c => c

/-- Tag selector of one path step: a literal tag or the wildcard `*`. -/
inductive TagSel where
  | any : TagSel
  | tagName : String → TagSel
deriving DecidableEq

/-- Predicate of one path step: `[@key='val']` matches on an attribute,
`[child='val']` matches when a child element with that tag has that text. -/
inductive StepPred where
  | attrEq : String → String → StepPred
  | childTextEq : String → String → StepPred
deriving DecidableEq

/-- One step of a child-axis path: a tag selector with an optional predicate. -/
structure Step where
  sel : TagSel
  pred : Option StepPred
deriving DecidableEq

/-- Evaluate a step predicate on an element. -/
def matchesPred (e : Element) : StepPred → Bool
  | .attrEq k v => (e.attrib.lookup k) == some v
  | .childTextEq t v => e.children.any (fun c => c.tag == t && c.text == some v)

/-- Does an element match a path step. -/
def matchesStep (e : Element) (s : Step) : Bool :=
  (match s.sel with
   | .any => true
   | .tagName n => e.tag == n)
  && (match s.pred with
      | none => true
      | some p => matchesPred e p)

/-- All elements reached from `e` by a child-axis path, in document order:
each step descends from the current frontier to the matching children. -/
def findAllPath (e : Element) (p : List Step) : List Element :=
  p.foldl (fun frontier s => frontier.flatMap (fun x => x.children.filter (fun c => matchesStep c s))) [e]

/-- Model of `ElementTree.find` restricted to the child-axis paths the
client builds: first element matching the whole path, in document order. -/
def findPath (e : Element) (p : List Step) : Option Element :=
  (findAllPath e p).head?

/-- Locator `module/services/*[@log_type=t]/functionalities/point_log`
built by `get_point_log_id` (climate.py line 169). -/
def pointLogIdPath (log_type : String) : List Step :=
  [⟨.tagName "module", none⟩, ⟨.tagName "services", none⟩,
   ⟨.any, some (.attrEq "log_type" log_type)⟩,
   ⟨.tagName "functionalities", none⟩, ⟨.tagName "point_log", none⟩]

/-- Locator `*/logs/point_log[@id=pid]/period/measurement` built by
`get_measurement_from_point_log` (climate.py line 179). -/
def measurementPath (pid : String) : List Step :=
  [⟨.any, none⟩, ⟨.tagName "logs", none⟩,
   ⟨.tagName "point_log", some (.attrEq "id" pid)⟩,
   ⟨.tagName "period", none⟩, ⟨.tagName "measurement", none⟩]

/-- Locator `rule[active='true']/directives/when/then` used by the legacy
branch of `get_current_preset` (climate.py line 187). -/
def legacyRulePath : List Step :=
  [⟨.tagName "rule", some (.childTextEq "active" "true")⟩,
   ⟨.tagName "directives", none⟩, ⟨.tagName "when", none⟩, ⟨.tagName "then", none⟩]

/-- Locator `appliance[type='thermostat']/logs/point_log[type=lt]/period/measurement`
used by the non-legacy branch of `get_current_preset` (climate.py line 193). -/
def presetStatePath (log_type : String) : List Step :=
  [⟨.tagName "appliance", some (.childTextEq "type" "thermostat")⟩,
   ⟨.tagName "logs", none⟩,
   ⟨.tagName "point_log", some (.childTextEq "type" log_type)⟩,
   ⟨.tagName "period", none⟩, ⟨.tagName "measurement", none⟩]

/-! Numeric coercion: `float(measurement)` on decimal strings, as exact
rationals, and the exceptions the coercion can raise. -/

/-- Exceptions the getters can raise. -/
inductive PyError where
  | keyError : PyError
  | typeError : PyError
  | valueError : PyError
  | attributeError : PyError
deriving DecidableEq

/-- Split a character list at the first `.`, keeping both sides. -/
def splitDot : List Char → List Char × Option (List Char)
  | [] => ([], none)
  | '.' :: rest => ([], some rest)
  | c :: rest =>
    let (a, b) := splitDot rest
    (c :: a, b)

/-- Numeric value of a digit list, most significant first. -/
def natOfDigits (l : List Char) : Nat :=
  l.foldl (fun n c => n * 10 + (c.toNat - 48)) 0

/-- Parse a decimal string (optional sign, digits, optional fractional
part) to an exact rational; `none` models `float(...)` raising ValueError. -/
def parseFloat (s : String) : Option Rat :=
  let signAndBody : Rat × List Char :=
    match s.data with
    | '-' :: rest => (-1, rest)
    | '+' :: rest => (1, rest)
    | l => (1, l)
  let sgn := signAndBody.1
  let body := signAndBody.2
  let ipAndFp := splitDot body
  match ipAndFp.2 with
  | none =>
    if !ipAndFp.1.isEmpty && ipAndFp.1.all Char.isDigit then
      some (sgn * (natOfDigits ipAndFp.1 : Rat))
    else none
  | some fp =>
    if (!ipAndFp.1.isEmpty || !fp.isEmpty)
        && ipAndFp.1.all Char.isDigit && fp.all Char.isDigit then
      some (sgn * ((natOfDigits ipAndFp.1 : Rat)
        + mkRat (natOfDigits fp : Int) (10 ^ fp.length)))
    else none

/-- Coercion `float(measurement)` applied to an optional string:
`float(None)` raises TypeError, an unparsable string raises ValueError. -/
def pyFloat : Option String → Except PyError Rat
  | none => .error .typeError
  | some s =>
    match parseFloat s with
    | some q => .ok q
    | none => .error .valueError

/-! The getters of `climate.py`, over a stored domain snapshot. Fallible
lookups return `Except PyError`; a `.error` value models an uncaught
Python exception escaping the getter. -/

/-- Model of `Plugwise.get_point_log_id` (climate.py line 166): find the
point-log registration for `log_type` under `module/services`; reading
the `id` attribute of a match that lacks it raises KeyError. -/
def get_point_log_id (xmldata : Element) (log_type : String) : Except PyError (Option String) :=
  match findPath xmldata (pointLogIdPath log_type) with
  | none => .ok none
  | some e =>
    match e.attrib.lookup "id" with
    | some v => .ok (some v)
    | none => .error .keyError

/-- Model of `Plugwise.get_measurement_from_point_log` (climate.py line
176): text of `*/logs/point_log[@id=pid]/period/measurement`, absent
when the path or the text is missing. -/
def get_measurement_from_point_log (xmldata : Element) (point_log_id : String) : Option String :=
  match findPath xmldata (measurementPath point_log_id) with
  | none => none
  | some e => e.text

/-- Model of `Plugwise.get_current_preset` (climate.py line 184) applied
to the stored snapshot. Legacy mode reads the `icon` attribute of the
active rule's then-directive, defaulting to `"none"`; non-legacy mode
reads the `preset_state` measurement text and raises AttributeError when
the locator finds nothing (`.text` on `None`). -/
def get_current_preset (legacy_anna : Bool) (domain_objects : Element) : Except PyError (Option String) :=
  if legacy_anna then
    match findPath domain_objects legacyRulePath with
    | none => .ok (some "none")
    | some active_rule =>
      match active_rule.attrib.lookup "icon" with
      | none => .ok (some "none")
      | some v => .ok (some v)
  else
    match findPath domain_objects (presetStatePath "preset_state") with
    | none => .error .attributeError
    | some e => .ok e.text

/-- Model of `Plugwise.get_schedule_temperature` (climate.py line 200):
the measurement for the `schedule_temperature` point-log id, coerced to a
number only when the id and the measurement are truthy (non-empty). -/
def get_schedule_temperature (domain_objects : Element) : Except PyError (Option Rat) :=
  match get_point_log_id domain_objects "schedule_temperature" with
  | .error e => .error e
  | .ok none => .ok none
  | .ok (some pid) =>
    if pid = "" then .ok none
    else
      match get_measurement_from_point_log domain_objects pid with
      | none => .ok none
      | some m =>
        if m = "" then .ok none
        else
          match parseFloat m with
          | some v => .ok (some v)
          | none => .error .valueError

/-- Model of `Plugwise.get_current_temperature` (climate.py line 210):
the measurement for the `temperature` point-log id, coerced to a number
with no guard on the measurement (`float(None)` raises TypeError). -/
def get_current_temperature (domain_objects : Element) : Except PyError (Option Rat) :=
  match get_point_log_id domain_objects "temperature" with
  | .error e => .error e
  | .ok none => .ok none
  | .ok (some pid) =>
    if pid = "" then .ok none
    else
      match pyFloat (get_measurement_from_point_log domain_objects pid) with
      | .ok v => .ok (some v)
      | .error e => .error e

/-! Transport layer: `connect` and `request`. The network is modelled by
an oracle assigning each attempt index its outcome; the retry loops walk
successive indices. -/

/-- Outcome of one GET attempt against `/ping`: a caught network or
timeout error, or a response with the given body text. -/
inductive PingAttempt where
  | failure : PingAttempt
  | success : String → PingAttempt

/-- Substring test `'error' in result` on character lists. -/
def containsSub (needle hay : List Char) : Bool :=
  match hay with
  | [] => needle.isEmpty
  | _ :: rest => needle.isPrefixOf hay || containsSub needle rest

/-- Model of `Plugwise.connect` (climate.py line 58): on a network or
timeout error, retry while budget remains, else report `false`; on a
response, report whether the body contains the substring `error`. -/
def connect (oracle : Nat → PingAttempt) (k : Nat) (retry : Nat) : Bool :=
  match oracle k with
  | .failure =>
    match retry with
    | 0 => false
    | r + 1 => connect oracle (k + 1) r
  | .success body => containsSub "error".data body.data

/-- Outcome of one GET attempt in `request`: a timeout (retried), another
transport error (not retried), or a response with the given body text. -/
inductive FetchAttempt where
  | timeout : FetchAttempt
  | clientError : FetchAttempt
  | success : String → FetchAttempt

/-- Sentinel body `{"errorCode":0}` treated as no data. -/
def errorSentinel : String := "\x7b\"errorCode\":0\x7d"

/-- Model of `Plugwise.request` (climate.py line 94): timeouts are
retried while budget remains and exhaust to no data; other transport
errors give no data at once; an empty or sentinel body gives no data;
any other body is sanitized and parsed into a document tree (the parser
`fromstring` is supplied as a parameter). -/
def request (fromstring : String → Element) (oracle : Nat → FetchAttempt)
    (k : Nat) (retry : Nat) : Option Element :=
  match oracle k with
  | .timeout =>
    match retry with
    | 0 => none
    | r + 1 => request fromstring oracle (k + 1) r
  | .clientError => none
  | .success body =>
    if body = "" ∨ body = errorSentinel then none
    else some (fromstring (escape_illegal_xml_characters body))

/-! Cache and throttle state. Times are rationals measured in seconds;
`MIN_TIME_BETWEEN_UPDATES` is 2 seconds. -/

/-- Threshold `MIN_TIME_BETWEEN_UPDATES = timedelta(seconds=2)`. -/
def MIN_TIME_BETWEEN_UPDATES : Rat := 2

/-- Mutable state of a `Plugwise` client: throttle timestamp and stored
domain snapshot. -/
structure PlugwiseState where
  throttle_time : Option Rat
  domain_objects : Option Element

/-- Model of `Plugwise.update_domain_objects` (climate.py line 129):
fetch the domain objects with retry budget 3 (the `request` default) and
store the result, whatever it is, as the snapshot; also return it. -/
def update_domain_objects (fromstring : String → Element) (oracle : Nat → FetchAttempt)
    (k : Nat) (s : PlugwiseState) : PlugwiseState × Option Element :=
  let r := request fromstring oracle k 3
  ({ s with domain_objects := r }, r)

/-- Model of `Plugwise.throttle_update_domain_objects` (climate.py line
143): skip when the last recorded time is less than 2 seconds ago,
otherwise record `now` and refresh. The boolean reports whether a
network fetch was performed. -/
def throttle_update_domain_objects (fromstring : String → Element)
    (oracle : Nat → FetchAttempt) (k : Nat) (now : Rat)
    (s : PlugwiseState) : PlugwiseState × Bool :=
  match s.throttle_time with
  | some t =>
    if now - t < MIN_TIME_BETWEEN_UPDATES then (s, false)
    else
      ((update_domain_objects fromstring oracle k
        { s with throttle_time := some now }).1, true)
  | none =>
    ((update_domain_objects fromstring oracle k
      { s with throttle_time := some now }).1, true)

/-! Concrete snapshots used to instantiate the theorems. -/

/-- Measurement leaf `<measurement>19.5</measurement>`. -/
def measurementElem : Element := .mk "measurement" [] (some "19.5") []

/-- Period element holding the measurement. -/
def periodElem : Element := .mk "period" [] none [measurementElem]

/-- Type tag `<type>temperature</type>` of the appliance point-log. -/
def typeTempElem : Element := .mk "type" [] (some "temperature") []

/-- Appliance-side point-log with id `42` and the `19.5` measurement. -/
def appliancePointLog : Element := .mk "point_log" [("id", "42")] none [typeTempElem, periodElem]

/-- Logs container of the appliance. -/
def logsElem : Element := .mk "logs" [] none [appliancePointLog]

/-- Type tag `<type>thermostat</type>` of the appliance. -/
def typeThermoElem : Element := .mk "type" [] (some "thermostat") []

/-- Thermostat appliance holding the point-log. -/
def applianceElem : Element := .mk "appliance" [] none [typeThermoElem, logsElem]

/-- Snapshot exactly as claim C5 words it: one thermostat appliance
holding a `temperature` point-log with id `42` and measurement `19.5`,
and nothing else. -/
def c5ClaimSnapshot : Element := .mk "domain_objects" [] none [applianceElem]

/-- Registry-side point-log carrying only the id. -/
def registryPointLog : Element := .mk "point_log" [("id", "42")] none []

/-- Functionalities container of the registry service. -/
def functionalitiesElem : Element := .mk "functionalities" [] none [registryPointLog]

/-- Service element with attribute `log_type='temperature'` (any tag, the
locator uses `*`). -/
def serviceTempElem : Element := .mk "thermo_meter" [("log_type", "temperature")] none [functionalitiesElem]

/-- Services container of the module. -/
def servicesElem : Element := .mk "services" [] none [serviceTempElem]

/-- Module holding the service registry. -/
def moduleElem : Element := .mk "module" [] none [servicesElem]

/-- Snapshot with both the module/services registry for `temperature`
(id `42`) and the thermostat appliance carrying measurement `19.5`. -/
def c5FullSnapshot : Element := .mk "domain_objects" [] none [moduleElem, applianceElem]

/-- Snapshot with the registry only: the `temperature` id is found but no
measurement exists anywhere. -/
def registryOnlySnapshot : Element := .mk "domain_objects" [] none [moduleElem]

/-- Measurement leaf with unparsable text `abc`. -/
def measurementBadElem : Element := .mk "measurement" [] (some "abc") []

/-- Period element holding the unparsable measurement. -/
def periodBadElem : Element := .mk "period" [] none [measurementBadElem]

/-- Appliance-side point-log with id `42` and the unparsable measurement. -/
def appliancePointLogBad : Element := .mk "point_log" [("id", "42")] none [periodBadElem]

/-- Logs container of the bad appliance. -/
def logsBadElem : Element := .mk "logs" [] none [appliancePointLogBad]

/-- Appliance holding the unparsable measurement. -/
def applianceBadElem : Element := .mk "appliance" [] none [logsBadElem]

/-- Snapshot whose `temperature` measurement text `abc` is not a number. -/
def c7BadSnapshot : Element := .mk "domain_objects" [] none [moduleElem, applianceBadElem]

/-- Then-directive of the active rule, carrying `icon='away'`. -/
def thenElem : Element := .mk "then" [("icon", "away")] none []

/-- When-wrapper of the directive. -/
def whenElem : Element := .mk "when" [] none [thenElem]

/-- Directives container of the rule. -/
def directivesElem : Element := .mk "directives" [] none [whenElem]

/-- Active flag child `<active>true</active>`. -/
def activeFlagElem : Element := .mk "active" [] (some "true") []

/-- Rule flagged active with an icon-carrying then-directive. -/
def ruleElem : Element := .mk "rule" [] none [activeFlagElem, directivesElem]

/-- Legacy snapshot holding one active rule. -/
def legacySnapshot : Element := .mk "domain_objects" [] none [ruleElem]

/-- Trivial parser stand-in used to instantiate transport theorems. -/
def constParse (s : String) : Element := .mk s [] none []

/-- Fresh client state: no throttle timestamp, no snapshot. -/
def freshState : PlugwiseState := ⟨none, none⟩

/-- A previously stored snapshot, used to test retention. -/
def oldSnapshot : Element := .mk "old" [] none []

/-- Client state already holding `oldSnapshot`. -/
def priorState : PlugwiseState := ⟨none, some oldSnapshot⟩

/-- Oracle whose every attempt fails with a non-timeout transport error. -/
def failOracle : Nat → FetchAttempt := fun _ => .clientError

/-- Oracle that times out once, then serves the body `<a/>`. -/
def c1Oracle : Nat → FetchAttempt := fun n => if n = 0 then .timeout else .success "<a/>"

/-- Ping oracle that immediately serves a body containing `error`. -/
def c9Oracle : Nat → PingAttempt := fun _ => .success "some error text"

/-! Helper lemmas shared by the claim theorems. -/

/-- A tail of a list with no double ampersand has no double ampersand. -/
theorem noDoubleAmp_tail {a : Char} {l : List Char} (h : noDoubleAmp (a :: l) = true) :
    noDoubleAmp l = true := by
  cases l with
  | nil => rfl
  | cons b rest =>
    unfold noDoubleAmp at h
    split at h
    · exact absurd h (by simp)
    · exact h

/-- In a list with no double ampersand, the character after an `&` is not `&`. -/
theorem noDoubleAmp_amp {b : Char} {l : List Char} (h : noDoubleAmp ('&' :: b :: l) = true) :
    b ≠ '&' := by
  intro hb
  subst hb
  unfold noDoubleAmp at h
  rw [if_pos ⟨rfl, rfl⟩] at h
  exact absurd h (by simp)

/-- On inputs with no consecutive ampersands, the code's sanitizer agrees
with the spec's position-wise description of it. -/
theorem escape_eq_spec : ∀ l : List Char, noDoubleAmp l = true →
    escapeIllegalList l = escapeSpecC3 l
  | [], _ => rfl
  | [a], _ => rfl
  | a :: b :: rest, h => by
    have ht : noDoubleAmp (b :: rest) = true := noDoubleAmp_tail h
    by_cases ha : a = '&'
    · subst ha
      have hb : b ≠ '&' := noDoubleAmp_amp h
      by_cases hL : letterOrHash b = true
      · simp only [escapeIllegalList, escapeSpecC3, hL, if_pos rfl, if_true]
        exact congrArg _ (escape_eq_spec (b :: rest) ht)
      · have hL' : letterOrHash b = false := by
          revert hL
          cases letterOrHash b <;> simp
        simp only [escapeIllegalList, escapeSpecC3, hL', if_pos rfl, Bool.false_eq_true,
          if_false, if_true]
        have hspec : escapeSpecC3 (b :: rest) = b :: escapeSpecC3 rest := by
          cases rest with
          | nil => rfl
          | cons c rest2 => simp only [escapeSpecC3, if_neg hb]
        rw [hspec]
        have htt : noDoubleAmp rest = true := noDoubleAmp_tail ht
        rw [escape_eq_spec rest htt]
    · simp only [escapeIllegalList, escapeSpecC3, if_neg ha]
      rw [escape_eq_spec (b :: rest) ht]

/-- The sanitizer keeps a final ampersand: sanitizing any input ending in
`&` yields output ending in a bare `&`. -/
theorem escape_append_amp : ∀ l : List Char, ∃ m, escapeIllegalList (l ++ ['&']) = m ++ ['&']
  | [] => ⟨[], rfl⟩
  | [a] => by
    by_cases ha : a = '&'
    · subst ha
      exact ⟨ampList, by decide⟩
    · refine ⟨[a], ?_⟩
      simp only [List.cons_append, List.nil_append, escapeIllegalList, if_neg ha]
  | a :: b :: rest => by
    by_cases ha : a = '&'
    · subst ha
      by_cases hL : letterOrHash b = true
      · obtain ⟨m, hm⟩ := escape_append_amp (b :: rest)
        refine ⟨'&' :: m, ?_⟩
        simp only [List.cons_append] at hm ⊢
        simp only [escapeIllegalList, hL, if_pos rfl, if_true]
        rw [hm]
      · obtain ⟨m, hm⟩ := escape_append_amp rest
        have hL' : letterOrHash b = false := by
          revert hL
          cases letterOrHash b <;> simp
        refine ⟨ampList ++ b :: m, ?_⟩
        simp only [List.cons_append] at hm ⊢
        simp only [escapeIllegalList, hL', if_pos rfl, Bool.false_eq_true, if_false, if_true]
        rw [hm]
        simp [List.append_assoc]
    · obtain ⟨m, hm⟩ := escape_append_amp (b :: rest)
      refine ⟨a :: m, ?_⟩
      simp only [List.cons_append] at hm ⊢
      simp only [escapeIllegalList, if_neg ha]
      rw [hm]

/-- Evaluation fact: `float("19.5")` is the rational 19.5. -/
theorem parseFloat_nineteen_half : parseFloat "19.5" = some (19.5 : Rat) := by
  simp [parseFloat, splitDot, natOfDigits]
  rw [Rat.mkRat_eq_div]
  norm_num

/-! Claim theorems. -/

/-- Claim C1: for every `request` run that completes without a
non-timeout transport error, the returned value is null iff the body was
empty, the body was the literal `{"errorCode":0}` sentinel, or every
attempt within the retry budget timed out; in every other case the
result is the document tree parsed from the sanitized body. -/
theorem claim_c1_request_null_iff (fromstring : String → Element)
    (oracle : Nat → FetchAttempt) (k retry : Nat) :
    ((∀ i, i ≤ retry → oracle (k + i) = .timeout) →
      request fromstring oracle k retry = none)
    ∧ (∀ j body, j ≤ retry → (∀ i, i < j → oracle (k + i) = .timeout) →
        oracle (k + j) = .success body →
        request fromstring oracle k retry =
          if body = "" ∨ body = errorSentinel then none
          else some (fromstring (escape_illegal_xml_characters body))) := by
  induction retry generalizing k with
  | zero =>
    constructor
    · intro hto
      have h0 : oracle k = .timeout := by simpa using hto 0 (Nat.le_refl 0)
      simp [request, h0]
    · intro j body hj hbefore hsucc
      have hj0 : j = 0 := Nat.le_zero.mp hj
      subst hj0
      have h0 : oracle k = .success body := by simpa using hsucc
      simp [request, h0]
  | succ r ih =>
    constructor
    · intro hto
      have h0 : oracle k = .timeout := by simpa using hto 0 (Nat.zero_le _)
      have hstep : request fromstring oracle k (r + 1) = request fromstring oracle (k + 1) r := by
        simp [request, h0]
      rw [hstep]
      apply (ih (k + 1)).1
      intro i hi
      have hre : k + 1 + i = k + (i + 1) := by omega
      rw [hre]
      exact hto (i + 1) (by omega)
    · intro j body hj hbefore hsucc
      cases j with
      | zero =>
        have h0 : oracle k = .success body := by simpa using hsucc
        simp [request, h0]
      | succ j' =>
        have h0 : oracle k = .timeout := by simpa using hbefore 0 (Nat.succ_pos j')
        have hstep : request fromstring oracle k (r + 1) = request fromstring oracle (k + 1) r := by
          simp [request, h0]
        rw [hstep]
        apply (ih (k + 1)).2 j' body (by omega)
        · intro i hi
          have hre : k + 1 + i = k + (i + 1) := by omega
          rw [hre]
          exact hbefore (i + 1) (by omega)
        · have hre : k + 1 + j' = k + (j' + 1) := by omega
          rw [hre]
          exact hsucc

/-- Claim C1 witness: one timeout then a non-sentinel body, inside the
default budget, yields the parsed sanitized body. -/
theorem claim_c1_request_null_iff_witness :
    ((1 : Nat) ≤ 3 ∧ c1Oracle (0 + 1) = .success "<a/>") ∧
    request constParse c1Oracle 0 3 = some (constParse (escape_illegal_xml_characters "<a/>")) := by
  refine ⟨⟨by decide, rfl⟩, ?_⟩
  have h := (claim_c1_request_null_iff constParse c1Oracle 0 3).2 1 "<a/>" (by decide)
    (fun i hi => by
      have hi0 : i = 0 := by omega
      subst hi0
      rfl) rfl
  rw [h]
  rw [if_neg (by decide)]

/-- Claim C2 counterexample: with a prior snapshot stored, a refresh
whose fetch returns no data overwrites the stored snapshot with null
instead of retaining the prior snapshot. -/
theorem claim_c2_stale_read_counterexample :
    priorState.domain_objects = some oldSnapshot ∧
    request constParse failOracle 0 3 = none ∧
    (update_domain_objects constParse failOracle 0 priorState).1.domain_objects = none ∧
    (none : Option Element) ≠ some oldSnapshot :=
  ⟨rfl, rfl, rfl, by simp⟩

/-- Claim C2 as amended: when the fetch fails or returns no data, the
snapshot stored after `update_domain_objects` is null — the fetch result
replaces the prior snapshot rather than retaining it. -/
theorem claim_c2_snapshot_replaced (fromstring : String → Element)
    (oracle : Nat → FetchAttempt) (k : Nat) (s : PlugwiseState)
    (h : request fromstring oracle k 3 = none) :
    (update_domain_objects fromstring oracle k s).1.domain_objects = none := by
  simp [update_domain_objects, h]

/-- Claim C2 witness: a client-error fetch leaves a null snapshot even
over a previously stored one. -/
theorem claim_c2_snapshot_replaced_witness :
    request constParse failOracle 0 3 = none ∧
    (update_domain_objects constParse failOracle 0 priorState).1.domain_objects = none :=
  ⟨rfl, claim_c2_snapshot_replaced constParse failOracle 0 priorState rfl⟩

/-- Claim C3 counterexample: in `&&.` the second `&` is followed by `.`,
not a letter or `#`, yet the code leaves it unchanged (it was consumed as
the captured follower of the first match), while the claim's rewrite
would escape it too. -/
theorem claim_c3_escape_counterexample :
    escape_illegal_xml_characters "&&." = "&amp;&." ∧
    String.mk (escapeSpecC3 "&&.".data) = "&amp;&amp;." ∧
    ("&amp;&." : String) ≠ "&amp;&amp;." :=
  ⟨by decide, by decide, by decide⟩

/-- Claim C3 as amended: on inputs with no two consecutive ampersands,
every `&` followed by a character that is not a letter or `#` becomes
`&amp;` and every `&` followed by a letter or `#` (or nothing) is left
unchanged; with consecutive ampersands the non-overlapping left-to-right
scan can leave the second `&` of a rewritten pair unescaped. -/
theorem claim_c3_escape_no_double_amp (s : String) (h : noDoubleAmp s.data = true) :
    escape_illegal_xml_characters s = String.mk (escapeSpecC3 s.data) :=
  congrArg String.mk (escape_eq_spec s.data h)

/-- Claim C3 witness: a mixed input with isolated ampersands. -/
theorem claim_c3_escape_no_double_amp_witness :
    noDoubleAmp "A & B &#38; &x <& y".data = true ∧
    escape_illegal_xml_characters "A & B &#38; &x <& y"
      = String.mk (escapeSpecC3 "A & B &#38; &x <& y".data) :=
  ⟨by decide, claim_c3_escape_no_double_amp "A & B &#38; &x <& y" (by decide)⟩

/-- Claim C4: after a first throttled refresh that performed a fetch and
recorded its timestamp, a second call less than 2 seconds later performs
no fetch and leaves state (snapshot and timestamp) unchanged, while a
second call at least 2 seconds later performs a fetch. -/
theorem claim_c4_throttle (F : String → Element) (o1 o2 : Nat → FetchAttempt)
    (k1 k2 : Nat) (t1 t2 : Rat) (s : PlugwiseState)
    (hfirst : (throttle_update_domain_objects F o1 k1 t1 s).2 = true) :
    (t2 - t1 < 2 →
      throttle_update_domain_objects F o2 k2 t2 (throttle_update_domain_objects F o1 k1 t1 s).1
        = ((throttle_update_domain_objects F o1 k1 t1 s).1, false))
    ∧ (2 ≤ t2 - t1 →
      (throttle_update_domain_objects F o2 k2 t2 (throttle_update_domain_objects F o1 k1 t1 s).1).2
        = true) := by
  have hts : (throttle_update_domain_objects F o1 k1 t1 s).1.throttle_time = some t1 := by
    revert hfirst
    unfold throttle_update_domain_objects
    cases h : s.throttle_time with
    | none =>
      intro _
      simp [update_domain_objects]
    | some t =>
      intro hf
      by_cases hlt : t1 - t < MIN_TIME_BETWEEN_UPDATES
      · simp [hlt] at hf
      · simp [hlt, update_domain_objects]
  constructor
  · intro hlt
    generalize hS : (throttle_update_domain_objects F o1 k1 t1 s).1 = S at hts ⊢
    conv_lhs => unfold throttle_update_domain_objects
    simp only [hts, MIN_TIME_BETWEEN_UPDATES]
    rw [if_pos hlt]
  · intro hge
    have hnlt : ¬ (t2 - t1 < (2 : Rat)) := not_lt.mpr hge
    generalize hS : (throttle_update_domain_objects F o1 k1 t1 s).1 = S at hts ⊢
    conv_lhs => unfold throttle_update_domain_objects
    simp only [hts, MIN_TIME_BETWEEN_UPDATES]
    rw [if_neg hnlt]

/-- Claim C4 witness: calls at times 0 and 1 on a fresh client; the first
fetches, the second is a no-op leaving the state unchanged. -/
theorem claim_c4_throttle_witness :
    (throttle_update_domain_objects constParse failOracle 0 0 freshState).2 = true ∧
    throttle_update_domain_objects constParse failOracle 0 1
        (throttle_update_domain_objects constParse failOracle 0 0 freshState).1
      = ((throttle_update_domain_objects constParse failOracle 0 0 freshState).1, false) :=
  ⟨rfl, (claim_c4_throttle constParse failOracle failOracle 0 0 0 1 freshState rfl).1 (by norm_num)⟩

/-- Claim C5 counterexample: on the snapshot consisting of exactly the
claim's one thermostat appliance, the temperature point-log id lookup
(which searches only `module/services`) finds nothing, so
`get_current_temperature` returns null rather than 19.5. -/
theorem claim_c5_scenario_counterexample :
    get_point_log_id c5ClaimSnapshot "temperature" = .ok none ∧
    get_current_temperature c5ClaimSnapshot = .ok none ∧
    (Except.ok none : Except PyError (Option Rat)) ≠ .ok (some (19.5 : Rat)) := by
  refine ⟨rfl, rfl, ?_⟩
  intro hcontra
  simp at hcontra

/-- Claim C5 as amended: on a snapshot that holds both the
`module/services` registry entry for log-type `temperature` with
point-log id 42 and the thermostat appliance whose point-log 42 carries
period measurement 19.5, `get_current_temperature()` returns 19.5. -/
theorem claim_c5_scenario_with_registry :
    get_current_temperature c5FullSnapshot = .ok (some (19.5 : Rat)) := by
  have hid : get_point_log_id c5FullSnapshot "temperature" = .ok (some "42") := rfl
  have hm : get_measurement_from_point_log c5FullSnapshot "42" = some "19.5" := rfl
  simp [get_current_temperature, hid, hm, pyFloat, parseFloat_nineteen_half]

/-- Claim C6: when the temperature point-log id is found (non-empty) but
its measurement is absent, `get_current_temperature` does not return
null — the unguarded numeric coercion of the null measurement raises a
TypeError — while `get_schedule_temperature` returns null in the
analogous absent-measurement case. -/
theorem claim_c6_unguarded_coercion (d : Element) (pid : String) :
    (get_point_log_id d "temperature" = .ok (some pid) → pid ≠ "" →
      get_measurement_from_point_log d pid = none →
      get_current_temperature d = .error PyError.typeError)
    ∧ (get_point_log_id d "schedule_temperature" = .ok (some pid) → pid ≠ "" →
      get_measurement_from_point_log d pid = none →
      get_schedule_temperature d = .ok none) := by
  constructor
  · intro h1 h2 h3
    simp [get_current_temperature, h1, h2, h3, pyFloat]
  · intro h1 h2 h3
    simp [get_schedule_temperature, h1, h2, h3]

/-- Claim C6 witness: a snapshot holding only the registry entry has the
id but no measurement, and the getter raises. -/
theorem claim_c6_unguarded_coercion_witness :
    get_point_log_id registryOnlySnapshot "temperature" = .ok (some "42") ∧
    get_measurement_from_point_log registryOnlySnapshot "42" = none ∧
    get_current_temperature registryOnlySnapshot = .error PyError.typeError :=
  ⟨rfl, rfl, (claim_c6_unguarded_coercion registryOnlySnapshot "42").1 rfl (by decide) rfl⟩

/-- Claim C7 counterexample: a snapshot whose temperature measurement
text is `abc` makes `get_current_temperature` raise a ValueError — it
returns neither a numeric value nor null, against the claim's dichotomy
over every snapshot. -/
theorem claim_c7_total_counterexample :
    get_point_log_id c7BadSnapshot "temperature" = .ok (some "42") ∧
    get_measurement_from_point_log c7BadSnapshot "42" = some "abc" ∧
    get_current_temperature c7BadSnapshot = .error PyError.valueError ∧
    (Except.error PyError.valueError : Except PyError (Option Rat)) ≠ .ok none :=
  ⟨rfl, rfl, rfl, by simp⟩

/-- Claim C7 as amended, a complete case split: both getters return null
when the point-log id is absent or empty; with a non-empty id found,
both return the numeric parse of the measurement text when it is
present, non-empty and parsable; when the measurement is absent,
`get_schedule_temperature` returns null while `get_current_temperature`
raises TypeError; when it is the empty string,
`get_schedule_temperature` returns null while `get_current_temperature`
raises ValueError; and when it is present, non-empty but unparsable,
both raise ValueError. -/
theorem claim_c7_guarded (d : Element) (pid m : String) (q : Rat) :
    (get_point_log_id d "temperature" = .ok none →
      get_current_temperature d = .ok none)
    ∧ (get_point_log_id d "schedule_temperature" = .ok none →
      get_schedule_temperature d = .ok none)
    ∧ (get_point_log_id d "temperature" = .ok (some "") →
      get_current_temperature d = .ok none)
    ∧ (get_point_log_id d "schedule_temperature" = .ok (some "") →
      get_schedule_temperature d = .ok none)
    ∧ (get_point_log_id d "temperature" = .ok (some pid) → pid ≠ "" →
      get_measurement_from_point_log d pid = some m → parseFloat m = some q →
      get_current_temperature d = .ok (some q))
    ∧ (get_point_log_id d "schedule_temperature" = .ok (some pid) → pid ≠ "" →
      get_measurement_from_point_log d pid = some m → m ≠ "" → parseFloat m = some q →
      get_schedule_temperature d = .ok (some q))
    ∧ (get_point_log_id d "temperature" = .ok (some pid) → pid ≠ "" →
      get_measurement_from_point_log d pid = none →
      get_current_temperature d = .error PyError.typeError)
    ∧ (get_point_log_id d "schedule_temperature" = .ok (some pid) → pid ≠ "" →
      get_measurement_from_point_log d pid = none →
      get_schedule_temperature d = .ok none)
    ∧ (get_point_log_id d "temperature" = .ok (some pid) → pid ≠ "" →
      get_measurement_from_point_log d pid = some m → parseFloat m = none →
      get_current_temperature d = .error PyError.valueError)
    ∧ (get_point_log_id d "schedule_temperature" = .ok (some pid) → pid ≠ "" →
      get_measurement_from_point_log d pid = some "" →
      get_schedule_temperature d = .ok none)
    ∧ (get_point_log_id d "schedule_temperature" = .ok (some pid) → pid ≠ "" →
      get_measurement_from_point_log d pid = some m → m ≠ "" → parseFloat m = none →
      get_schedule_temperature d = .error PyError.valueError) := by
  refine ⟨?_, ?_, ?_, ?_, ?_, ?_, ?_, ?_, ?_, ?_, ?_⟩
  · intro h
    simp [get_current_temperature, h]
  · intro h
    simp [get_schedule_temperature, h]
  · intro h
    simp [get_current_temperature, h]
  · intro h
    simp [get_schedule_temperature, h]
  · intro h1 h2 h3 h4
    simp [get_current_temperature, h1, h2, h3, pyFloat, h4]
  · intro h1 h2 h3 h4 h5
    simp [get_schedule_temperature, h1, h2, h3, h4, h5]
  · intro h1 h2 h3
    simp [get_current_temperature, h1, h2, h3, pyFloat]
  · intro h1 h2 h3
    simp [get_schedule_temperature, h1, h2, h3]
  · intro h1 h2 h3 h4
    simp [get_current_temperature, h1, h2, h3, pyFloat, h4]
  · intro h1 h2 h3
    simp [get_schedule_temperature, h1, h2, h3]
  · intro h1 h2 h3 h4 h5
    simp [get_schedule_temperature, h1, h2, h3, h4, h5]

/-- Claim C7 witness: the registry-plus-appliance snapshot yields 19.5. -/
theorem claim_c7_guarded_witness :
    get_point_log_id c5FullSnapshot "temperature" = .ok (some "42") ∧
    get_measurement_from_point_log c5FullSnapshot "42" = some "19.5" ∧
    get_current_temperature c5FullSnapshot = .ok (some (19.5 : Rat)) :=
  ⟨rfl, rfl,
    (claim_c7_guarded c5FullSnapshot "42" "19.5" (19.5 : Rat)).2.2.2.2.1 rfl (by decide) rfl
      parseFloat_nineteen_half⟩

/-- Claim C8: in legacy mode, `get_current_preset` returns `"none"` when
no active rule's then-directive is found or when that directive lacks an
`icon` attribute, and returns the `icon` attribute value otherwise. -/
theorem claim_c8_legacy_preset (d : Element) :
    (findPath d legacyRulePath = none → get_current_preset true d = .ok (some "none"))
    ∧ (∀ ar, findPath d legacyRulePath = some ar → ar.attrib.lookup "icon" = none →
        get_current_preset true d = .ok (some "none"))
    ∧ (∀ ar v, findPath d legacyRulePath = some ar → ar.attrib.lookup "icon" = some v →
        get_current_preset true d = .ok (some v)) := by
  refine ⟨?_, ?_, ?_⟩
  · intro h
    simp [get_current_preset, h]
  · intro ar h1 h2
    simp [get_current_preset, h1, h2]
  · intro ar v h1 h2
    simp [get_current_preset, h1, h2]

/-- Claim C8 witness: an active rule carrying `icon='away'`. -/
theorem claim_c8_legacy_preset_witness :
    findPath legacySnapshot legacyRulePath = some thenElem ∧
    thenElem.attrib.lookup "icon" = some "away" ∧
    get_current_preset true legacySnapshot = .ok (some "away") :=
  ⟨rfl, rfl, (claim_c8_legacy_preset legacySnapshot).2.2 thenElem "away" rfl rfl⟩

/-- Claim C9: `connect` reduces every outcome to a boolean — after
network/timeout errors on the whole retry budget it returns false, and
on a response within the budget it returns true exactly when the body
contains the substring `error`. -/
theorem claim_c9_connect_boolean (oracle : Nat → PingAttempt) (k retry : Nat) :
    ((∀ i, i ≤ retry → oracle (k + i) = .failure) → connect oracle k retry = false)
    ∧ (∀ j body, j ≤ retry → (∀ i, i < j → oracle (k + i) = .failure) →
        oracle (k + j) = .success body →
        connect oracle k retry = containsSub "error".data body.data) := by
  induction retry generalizing k with
  | zero =>
    constructor
    · intro hto
      have h0 : oracle k = .failure := by simpa using hto 0 (Nat.le_refl 0)
      simp [connect, h0]
    · intro j body hj hbefore hsucc
      have hj0 : j = 0 := Nat.le_zero.mp hj
      subst hj0
      have h0 : oracle k = .success body := by simpa using hsucc
      simp [connect, h0]
  | succ r ih =>
    constructor
    · intro hto
      have h0 : oracle k = .failure := by simpa using hto 0 (Nat.zero_le _)
      have hstep : connect oracle k (r + 1) = connect oracle (k + 1) r := by
        simp [connect, h0]
      rw [hstep]
      apply (ih (k + 1)).1
      intro i hi
      have hre : k + 1 + i = k + (i + 1) := by omega
      rw [hre]
      exact hto (i + 1) (by omega)
    · intro j body hj hbefore hsucc
      cases j with
      | zero =>
        have h0 : oracle k = .success body := by simpa using hsucc
        simp [connect, h0]
      | succ j' =>
        have h0 : oracle k = .failure := by simpa using hbefore 0 (Nat.succ_pos j')
        have hstep : connect oracle k (r + 1) = connect oracle (k + 1) r := by
          simp [connect, h0]
        rw [hstep]
        apply (ih (k + 1)).2 j' body (by omega)
        · intro i hi
          have hre : k + 1 + i = k + (i + 1) := by omega
          rw [hre]
          exact hbefore (i + 1) (by omega)
        · have hre : k + 1 + j' = k + (j' + 1) := by omega
          rw [hre]
          exact hsucc

/-- Claim C9 witness: an immediate response whose body contains `error`
makes `connect` report success. -/
theorem claim_c9_connect_boolean_witness :
    c9Oracle (0 + 0) = .success "some error text" ∧
    connect c9Oracle 0 2 = true := by
  refine ⟨rfl, ?_⟩
  have h := (claim_c9_connect_boolean c9Oracle 0 2).2 0 "some error text" (by decide)
    (fun i hi => absurd hi (Nat.not_lt_zero i)) rfl
  rw [h]
  decide

/-- Claim C10: the rewrite pattern needs a character after the `&`, so an
input ending in `&` sanitizes to output still ending in that bare,
unescaped `&`. -/
theorem claim_c10_trailing_amp (s : String) (h : s.data.getLast? = some '&') :
    ∃ m, (escape_illegal_xml_characters s).data = m ++ ['&'] := by
  have hne : s.data ≠ [] := by
    intro h0
    rw [h0] at h
    simp at h
  have hg : s.data.getLast hne = '&' := by
    have hh := List.getLast?_eq_getLast s.data hne
    rw [hh] at h
    exact Option.some.inj h
  have hsplit : s.data.dropLast ++ ['&'] = s.data := by
    have hx := List.dropLast_append_getLast hne
    rw [hg] at hx
    exact hx
  obtain ⟨m, hm⟩ := escape_append_amp s.data.dropLast
  refine ⟨m, ?_⟩
  show escapeIllegalList s.data = m ++ ['&']
  rw [← hsplit]
  exact hm

/-- Claim C10 witness: `a&` keeps its trailing ampersand. -/
theorem claim_c10_trailing_amp_witness :
    "a&".data.getLast? = some '&' ∧
    ∃ m, (escape_illegal_xml_characters "a&").data = m ++ ['&'] :=
  ⟨by decide, claim_c10_trailing_amp "a&" (by decide)⟩
